import Mathlib

/-!
Shallow embedding of `django_typomatic` (`src/django_typomatic/__init__.py`).

Python classes are modelled as `PyClass` values: `id` stands for object
identity (Python compares classes with `is`/default `==`, i.e. identity), and
`name` is `__name__`.  A DRF field instance is modelled by `FieldVal`: its own
class `ftype` (`type(field)`), and `child`, which is `some c` exactly when
`hasattr(field, 'child')` holds and `type(field.child) = c`.  A serializer
class is a `SerClass`: its class object, whether it is a subclass of
`serializers.Serializer`, whether it is a subclass of
`serializers.ModelSerializer`, its `_declared_fields` (as an ordered list of
name/field pairs, Python dicts preserve insertion order), and `modelFields`,
which models the opaque field-enumeration capability
`serializer().get_fields()` used for model-bound serializers.

The process-wide dict `__serializers` is modelled as an insertion-ordered
association list `Registry`; the file system written by `generate_ts` is the
association list `FS` from paths to contents.  `mappings`
(`src/django_typomatic/mappings.py`) is not part of the sources, so every
function takes the mapping table `mp` as an explicit parameter; a concrete
table modelled from the spec is given below for the end-to-end example.
-/

structure PyClass where
  id : Nat
  name : String
deriving DecidableEq

structure FieldVal where
  ftype : PyClass
  child : Option PyClass
deriving DecidableEq

structure SerClass where
  cls : PyClass
  isSerializerSubclass : Bool
  isModelSerializer : Bool
  declaredFields : List (String × FieldVal)
  modelFields : List (String × FieldVal)
deriving DecidableEq

/-- The process-wide `__serializers` dict: context name ↦ ordered list of
registered serializer classes, in key-insertion order. -/
abbrev Registry := List (String × List SerClass)

/-- `__serializers[context]` as a partial lookup (`none` models `KeyError`). -/
def lookupCtx (r : Registry) (c : String) : Option (List SerClass) :=
  (r.find? (fun p => p.1 = c)).map (fun p => p.2)

/-- `if context not in __serializers: __serializers[context] = []` followed by
`__serializers[context].append(cls)`: append to the context's list, creating
the key (at the end, as dict insertion does) if absent. -/
def registryAppend : Registry → String → SerClass → Registry
  | [], c, s => [(c, [s])]
  | (k, l) :: rest, c, s =>
      if k = c then (k, l ++ [s]) :: rest else (k, l) :: registryAppend rest c s

/-- File system: path ↦ content. -/
abbrev FS := List (String × String)

/-- Create or overwrite the file at path `p` with content `v`. -/
def setFS : FS → String → String → FS
  | [], p, v => [(p, v)]
  | (q, w) :: rest, p, v =>
      if q = p then (q, v) :: rest else (q, w) :: setFS rest p v

/-- Content of the file at path `p`, if it exists. -/
def getFS (fs : FS) (p : String) : Option String :=
  (fs.find? (fun e => e.1 = p)).map (fun e => e.2)

/-- The mutable process state touched by the module: the `__serializers`
registry and the file system. -/
structure PState where
  registry : Registry
  fs : FS
deriving DecidableEq

/-- The `ts_interface(context=...)` decorator applied to a class: if the class
is a subclass of `serializers.Serializer` it is appended to the registry under
`context`; either way the class itself is returned unchanged. -/
def ts_interface (context : String) (cls : SerClass) (s : PState) :
    SerClass × PState :=
  if cls.isSerializerSubclass then
    (cls, { s with registry := registryAppend s.registry context cls })
  else
    (cls, s)

/-- `__process_field(field_name, field, context)`.  `context_serializers`
stands for `__serializers[context]` (the function is only reached when the
context key exists).  `is_many` is `hasattr(field, 'child')`;
`field_type = is_many and type(field.child) or type(field)`; the membership
test `field_type in __serializers[context]` compares class objects (identity);
otherwise `mappings.get(field_type, 'any')`; `'[]'` is appended for
many-fields. -/
def __process_field (mp : List (PyClass × String))
    (context_serializers : List SerClass)
    (field_name : String) (field : FieldVal) : String × String :=
  let is_many := field.child.isSome
  let field_type := field.child.getD field.ftype
  let ts_type :=
    if context_serializers.any (fun s => s.cls = field_type) then
      field_type.name
    else
      ((mp.find? (fun p => p.1 = field_type)).map (fun p => p.2)).getD "any"
  let ts_type := if is_many then ts_type ++ "[]" else ts_type
  (field_name, ts_type)

/-- The field-enumeration selection of `__get_ts_interface`: a
`ModelSerializer` subclass is instantiated and `instance.get_fields().items()`
is used (modelled by the opaque `modelFields` capability); any other
serializer contributes `serializer._declared_fields.items()`. -/
def serializer_fields (serializer : SerClass) : List (String × FieldVal) :=
  if serializer.isModelSerializer then serializer.modelFields
  else serializer.declaredFields

/-- `__get_ts_interface(serializer, context)`: one `"    name: type;"` line
per field, joined with newlines and wrapped in
`export interface Name \x7b ... \x7d` with a trailing blank line. -/
def __get_ts_interface (mp : List (PyClass × String))
    (context_serializers : List SerClass) (serializer : SerClass) : String :=
  let name := serializer.cls.name
  let fields := serializer_fields serializer
  let ts_fields := fields.map (fun kv =>
    let ts_field := __process_field mp context_serializers kv.1 kv.2
    "    " ++ ts_field.1 ++ ": " ++ ts_field.2 ++ ";")
  let collapsed_fields := String.intercalate "\n" ts_fields
  "export interface " ++ name ++ " \x7b\n" ++ collapsed_fields ++ "\n\x7d\n\n"

/-- `generate_ts(output_path, context)` as a state transition.  The source
executes `with open(output_path, 'w') as output_file:` first — mode `'w'`
creates or truncates the file at open time — and only then evaluates
`__serializers[context]`, which raises `KeyError` (modelled `Except.error ()`)
when the context was never registered, leaving the truncated empty file
behind; otherwise the concatenated interfaces are written. -/
def generate_ts (mp : List (PyClass × String)) (output_path : String)
    (context : String) (s : PState) : Except Unit Unit × PState :=
  let fs1 := setFS s.fs output_path ""
  match lookupCtx s.registry context with
  | none => (Except.error (), { s with fs := fs1 })
  | some sers =>
      let interfaces := sers.map (fun t => __get_ts_interface mp sers t)
      (Except.ok (), { s with fs := setFS fs1 output_path (String.join interfaces) })

/-! Concrete classes for the spec's end-to-end example. -/

def IntegerFieldCls : PyClass := ⟨1, "IntegerField"⟩

def CharFieldCls : PyClass := ⟨2, "CharField"⟩

def ListFieldCls : PyClass := ⟨3, "ListField"⟩

def FooCls : PyClass := ⟨10, "Foo"⟩

def BarCls : PyClass := ⟨11, "Bar"⟩

/-- Modelled from the spec: the Mapping Table (`mappings` imported from
`src/django_typomatic/mappings.py`, a file absent from the sources).  Per the
spec's example, the integer field kind maps to `"number"` and the char/string
field kind maps to `"string"`. -/
def mappings : List (PyClass × String) :=
  [(IntegerFieldCls, "number"), (CharFieldCls, "string")]

/-- `Foo(serializers.Serializer)` with `id = serializers.IntegerField()`. -/
def FooSer : SerClass :=
  { cls := FooCls
    isSerializerSubclass := true
    isModelSerializer := false
    declaredFields := [("id", ⟨IntegerFieldCls, none⟩)]
    modelFields := [] }

/-- `Bar(serializers.Serializer)` with `foo = Foo()` (a field whose class is
`Foo`) and `tags = serializers.ListField(child=serializers.CharField())`. -/
def BarSer : SerClass :=
  { cls := BarCls
    isSerializerSubclass := true
    isModelSerializer := false
    declaredFields :=
      [("foo", ⟨FooCls, none⟩), ("tags", ⟨ListFieldCls, some CharFieldCls⟩)]
    modelFields := [] }

/-- The state after decorating `Foo` then `Bar` with
`@ts_interface(context='default')`, starting from an empty registry and an
empty file system. -/
def exampleState : PState :=
  (ts_interface "default" BarSer
    (ts_interface "default" FooSer ⟨[], []⟩).2).2

/-- Rendering a given explicit field list (used to characterise which field
list `__get_ts_interface` selects): one `"    name: type;"` line per pair,
wrapped in the interface block. -/
def render_fields (mp : List (PyClass × String)) (sers : List SerClass)
    (name : String) (fields : List (String × FieldVal)) : String :=
  let ts_fields := fields.map (fun kv =>
    let ts_field := __process_field mp sers kv.1 kv.2
    "    " ++ ts_field.1 ++ ": " ++ ts_field.2 ++ ";")
  "export interface " ++ name ++ " \x7b\n" ++
    String.intercalate "\n" ts_fields ++ "\n\x7d\n\n"

/-- A class that is not a subclass of `serializers.Serializer` (only used to
witness the behaviour of the decorator on non-serializers). -/
def PlainCls : SerClass :=
  { cls := ⟨20, "Plain"⟩
    isSerializerSubclass := false
    isModelSerializer := false
    declaredFields := []
    modelFields := [] }

/-- The resolver returns the field name it was given as first component. -/
theorem process_field_fst (mp : List (PyClass × String)) (sers : List SerClass)
    (field_name : String) (field : FieldVal) :
    (__process_field mp sers field_name field).1 = field_name := rfl

/-- Overwriting the same path twice keeps only the last content. -/
theorem setFS_setFS (fs : FS) (p a b : String) :
    setFS (setFS fs p a) p b = setFS fs p b := by
  induction fs with
  | nil => simp [setFS]
  | cons hd tl ih =>
      obtain ⟨q, w⟩ := hd
      by_cases h : q = p <;> simp [setFS, h, ih]

/-- Claim C1: after registering serializer `Foo` (one integer field `id`) and
serializer `Bar` (field `foo` of element kind `Foo`, field `tags` of kind
array-of-string) in context `"default"`, generating for `"default"` succeeds
and writes exactly the expected TypeScript text. -/
theorem generate_default_example :
    (generate_ts mappings "out.ts" "default" exampleState).1 = Except.ok ()
    ∧ getFS (generate_ts mappings "out.ts" "default" exampleState).2.fs "out.ts"
        = some "export interface Foo \x7b\n    id: number;\n\x7d\n\nexport interface Bar \x7b\n    foo: Foo;\n    tags: string[];\n\x7d\n\n" := by
  exact ⟨rfl, by decide⟩

/-- Claim C2 (counterexample): generating an unregistered context does raise a
lookup failure, but the output file, absent beforehand, exists afterwards with
empty content — `open(output_path, 'w')` creates/truncates it before the
registry lookup fails, contradicting "the file at outputPath is not created,
truncated, or otherwise modified". -/
theorem generate_missing_context_creates_file :
    (generate_ts mappings "out.ts" "missing" ⟨[], []⟩).1 = Except.error ()
    ∧ getFS (⟨[], []⟩ : PState).fs "out.ts" = none
    ∧ getFS (generate_ts mappings "out.ts" "missing" ⟨[], []⟩).2.fs "out.ts"
        = some "" := by
  exact ⟨rfl, by decide, by decide⟩

/-- Claim C2 (amended): generating a context that was never registered raises
a lookup failure and writes no interface text, but the output file is opened
in write mode before the lookup, so it is created (or truncated) to empty
content; the registry is untouched. -/
theorem generate_missing_context_truncates (mp : List (PyClass × String))
    (output_path context : String) (s : PState)
    (h : lookupCtx s.registry context = none) :
    generate_ts mp output_path context s
      = (Except.error (), { s with fs := setFS s.fs output_path "" }) := by
  simp [generate_ts, h]

/-- Witness for C2's amended theorem at a concrete state. -/
theorem generate_missing_context_truncates_witness :
    generate_ts [] "out.ts" "missing" ⟨[], []⟩
      = (Except.error (), ⟨[], [("out.ts", "")]⟩) :=
  generate_missing_context_truncates [] "out.ts" "missing" ⟨[], []⟩ (by decide)

/-- Claim C3: a field whose element kind is neither a key of the mapping
table nor a serializer registered in the current context resolves to the
fallback `"any"`, with `"[]"` appended for array fields; resolution is a
total function and never fails. -/
theorem unmapped_kind_falls_back_to_any (mp : List (PyClass × String))
    (sers : List SerClass) (field_name : String) (field : FieldVal)
    (hctx : sers.any (fun s => s.cls = field.child.getD field.ftype) = false)
    (hmap : mp.find? (fun p => p.1 = field.child.getD field.ftype) = none) :
    (__process_field mp sers field_name field).2
      = if field.child.isSome then "any" ++ "[]" else "any" := by
  obtain ⟨ft, ch⟩ := field
  cases ch with
  | none =>
      simp only [Option.getD_none] at hctx hmap
      simp [__process_field, hctx, hmap]
  | some c =>
      simp only [Option.getD_some] at hctx hmap
      simp [__process_field, hctx, hmap]

/-- Witness for C3 at a concrete unmapped, unregistered field kind. -/
theorem unmapped_kind_falls_back_to_any_witness :
    (__process_field [] [] "x" ⟨⟨99, "Mystery"⟩, none⟩).2 = "any" :=
  unmapped_kind_falls_back_to_any [] [] "x" ⟨⟨99, "Mystery"⟩, none⟩
    (by decide) (by decide)

/-- Claim C4: if serializer class `B` is registered in the current context's
collection and a field's element kind is `B` itself (identity of the class,
via membership in the collection), the field resolves to `B`'s class name
exactly, with `"[]"` appended for array fields — never to the mapping table
or the fallback, whatever the table contains. -/
theorem cross_reference_resolves_to_class_name (mp : List (PyClass × String))
    (sers : List SerClass) (B : SerClass) (field_name : String)
    (field : FieldVal) (hB : B ∈ sers)
    (helem : field.child.getD field.ftype = B.cls) :
    (__process_field mp sers field_name field).2
      = if field.child.isSome then B.cls.name ++ "[]" else B.cls.name := by
  obtain ⟨ft, ch⟩ := field
  cases ch with
  | none =>
      simp only [Option.getD_none] at helem
      subst helem
      have hany : sers.any (fun s => s.cls = B.cls) = true :=
        List.any_eq_true.mpr ⟨B, hB, by simp⟩
      simp [__process_field, hany]
  | some c =>
      simp only [Option.getD_some] at helem
      subst helem
      have hany : sers.any (fun s => s.cls = B.cls) = true :=
        List.any_eq_true.mpr ⟨B, hB, by simp⟩
      simp [__process_field, hany]

/-- Witness for C4: `Bar`'s field `foo`, an instance of registered `Foo`,
resolves to `"Foo"`. -/
theorem cross_reference_resolves_to_class_name_witness :
    (__process_field mappings [FooSer, BarSer] "foo" ⟨FooCls, none⟩).2
      = "Foo" := by
  have h := cross_reference_resolves_to_class_name mappings [FooSer, BarSer]
    FooSer "foo" ⟨FooCls, none⟩ (by decide) (by decide)
  simpa using h

/-- Claim C5: a field whose element kind is a serializer class `B` registered
only under context `"other"` resolves to `"any"` under context `"default"`
(when the kind is also not a mapping-table key): the containment check only
consults the current context's collection. -/
theorem context_isolation (mp : List (PyClass × String)) (registry : Registry)
    (sd so : List SerClass) (B : SerClass) (field_name : String)
    (field : FieldVal)
    (hd : lookupCtx registry "default" = some sd)
    (ho : lookupCtx registry "other" = some so)
    (hBo : B ∈ so)
    (helem : field.child.getD field.ftype = B.cls)
    (hnot : sd.any (fun s => s.cls = B.cls) = false)
    (hmap : mp.find? (fun p => p.1 = B.cls) = none) :
    (__process_field mp sd field_name field).2
      = if field.child.isSome then "any" ++ "[]" else "any" := by
  obtain ⟨ft, ch⟩ := field
  cases ch with
  | none =>
      simp only [Option.getD_none] at helem
      subst helem
      simp [__process_field, hnot, hmap]
  | some c =>
      simp only [Option.getD_some] at helem
      subst helem
      simp [__process_field, hnot, hmap]

/-- Witness for C5: `Foo` registered only in `"other"`; a field of kind `Foo`
resolved against `"default"`'s (empty) collection yields `"any"`. -/
theorem context_isolation_witness :
    (__process_field mappings [] "foo" ⟨FooCls, none⟩).2 = "any" := by
  have h := context_isolation mappings [("default", []), ("other", [FooSer])]
    [] [FooSer] FooSer "foo" ⟨FooCls, none⟩ (by decide) (by decide)
    (by decide) (by decide) (by decide) (by decide)
  simpa using h

/-- Claim C6: an array field (one carrying a child element of class `c`)
resolves to the resolution of a plain field of kind `c` with the suffix
`"[]"` appended. -/
theorem array_field_appends_brackets (mp : List (PyClass × String))
    (sers : List SerClass) (field_name : String) (ft c : PyClass) :
    (__process_field mp sers field_name ⟨ft, some c⟩).2
      = (__process_field mp sers field_name ⟨c, none⟩).2 ++ "[]" := by
  simp [__process_field]

/-- Claim C7: the rendered interface of a serializer `T` is the header
`export interface Name \x7b`, then exactly one line per enumerated field, in
field order, each formatted as four spaces, the name, colon-space, the
resolved type and a semicolon, then the closing brace and a blank line. -/
theorem render_one_line_per_field (mp : List (PyClass × String))
    (sers : List SerClass) (T : SerClass) :
    ∃ lines : List String,
      __get_ts_interface mp sers T
        = "export interface " ++ T.cls.name ++ " \x7b\n"
            ++ String.intercalate "\n" lines ++ "\n\x7d\n\n"
      ∧ lines.length = (serializer_fields T).length
      ∧ ∀ i : Nat, lines[i]?
          = ((serializer_fields T)[i]?).map (fun kv =>
              "    " ++ kv.1 ++ ": "
                ++ (__process_field mp sers kv.1 kv.2).2 ++ ";") := by
  refine ⟨(serializer_fields T).map (fun kv =>
      "    " ++ kv.1 ++ ": " ++ (__process_field mp sers kv.1 kv.2).2 ++ ";"),
      ?_, by simp, ?_⟩
  · simp only [__get_ts_interface, process_field_fst]
  · intro i
    simp [List.getElem?_map]

/-- Claim C8: `__get_ts_interface` renders a `ModelSerializer` subclass from
the instantiated serializer's computed field set (`get_fields`, modelled by
`modelFields`), and any other serializer from its statically declared
`_declared_fields`. -/
theorem model_bound_uses_instance_fields (mp : List (PyClass × String))
    (sers : List SerClass) (T : SerClass) :
    __get_ts_interface mp sers T
      = render_fields mp sers T.cls.name
          (if T.isModelSerializer then T.modelFields else T.declaredFields) := by
  by_cases h : T.isModelSerializer <;>
    simp [__get_ts_interface, render_fields, serializer_fields, h]

/-- Claim C9: generation never mutates the registry, and running it twice
from the same state is idempotent — the second run returns the same result
and leaves the state (registry and file contents) exactly as the first. -/
theorem generate_readonly_idempotent (mp : List (PyClass × String))
    (output_path context : String) (s : PState) :
    (generate_ts mp output_path context s).2.registry = s.registry
    ∧ generate_ts mp output_path context
        ((generate_ts mp output_path context s).2)
      = generate_ts mp output_path context s := by
  cases hctx : lookupCtx s.registry context <;>
    simp [generate_ts, hctx, setFS_setFS]

/-- Claim C10: the decorator applied to a class that is not a
`serializers.Serializer` subclass returns the class unchanged and leaves the
whole state — registry included — unchanged. -/
theorem non_serializer_not_registered (context : String) (cls : SerClass)
    (s : PState) (h : cls.isSerializerSubclass = false) :
    ts_interface context cls s = (cls, s) := by
  simp [ts_interface, h]

/-- Witness for C10 at a concrete non-serializer class. -/
theorem non_serializer_not_registered_witness :
    ts_interface "default" PlainCls ⟨[], []⟩ = (PlainCls, ⟨[], []⟩) :=
  non_serializer_not_registered "default" PlainCls ⟨[], []⟩ (by decide)
